import Mathlib

/-!
Verification of `proxygen/lib/http/HTTPConnector.cpp`: the client-side HTTP
connection establisher.  The connector's lifecycle state machine and its
protocol-to-codec resolution function `makeCodec` are embedded shallowly;
collaborators declared outside this file's source (the SPDY version table,
the HTTP/2 protocol strings, `HTTP1xCodec::supportsNextProtocol`, and the
header-declared accessors) are modelled from the specification document.
-/

namespace Proxygen

/-! ## Data model -/

/-- SPDY protocol versions distinguished by `SPDYCodec`. -/
inductive SPDYVersion where
  | SPDY3
  | SPDY3_1
deriving DecidableEq, Repr

/-- Orientation of a codec: client side (upstream) or server side. -/
inductive TransportDirection where
  | UPSTREAM
  | DOWNSTREAM
deriving DecidableEq, Repr

/-- The closed set of codec variants `makeCodec` can construct, each carrying
its construction arguments. -/
inductive HTTPCodec where
  | spdy (direction : TransportDirection) (version : SPDYVersion)
  | http2 (direction : TransportDirection)
  | http1x (direction : TransportDirection) (forceHTTP1_1 : Bool)
deriving DecidableEq, Repr

/-- Modelled from the spec: `SPDYCodec::getVersion` lives in
`proxygen/lib/http/codec/SPDYCodec.cpp`, which is not under `src/`.  The spec
says step 1 of resolution fires when "the name matches a known SPDY
protocol-version token" and constructs "the SPDY codec for that version"; the
known SPDY version tokens of this codebase are the NPN protocol names for
SPDY/3 and SPDY/3.1. -/
def SPDYCodec.getVersion (protoName : String) : Option SPDYVersion :=
  if protoName = "spdy/3" then some SPDYVersion.SPDY3
  else if protoName = "spdy/3.1" then some SPDYVersion.SPDY3_1
  else none

/-- Modelled from the spec: the HTTP/2 protocol identifier constants are
declared in `proxygen/lib/http/codec/HTTP2Constants.h`, not under `src/`.
The spec names them "the recognized HTTP/2 identifiers (standard, cleartext,
draft, experimental token forms)" and `h2` for the standard one. -/
def http2.kProtocolString : String := "h2"

/-- Modelled from the spec: the cleartext HTTP/2 identifier (`h2c`). -/
def http2.kProtocolCleartextString : String := "h2c"

/-- Modelled from the spec: the draft HTTP/2 identifier token form. -/
def http2.kProtocolDraftString : String := "h2-14"

/-- Modelled from the spec: the experimental HTTP/2 identifier token form. -/
def http2.kProtocolExperimentalString : String := "h2-fb"

/-- Modelled from the spec: `HTTP1xCodec::supportsNextProtocol` lives in
`proxygen/lib/http/codec/HTTP1xCodec.cpp`, not under `src/`.  The spec calls
the names it accepts the "recognized HTTP/1.x-compatible token" forms: the
HTTP/1.x protocol names. -/
def HTTP1xCodec.supportsNextProtocol (protoName : String) : Bool :=
  protoName = "http/1.0" ∨ protoName = "http/1.1"

/-- Shallow embedding of `HTTPConnector::makeCodec`
(`src/proxygen/lib/http/HTTPConnector.cpp:153-175`): first consult the SPDY
version table, then compare against the four HTTP/2 identifiers, else fall
back to HTTP/1.x (the `LOG(ERROR)` side effect is captured separately by
`makeCodecLogsWarning`). -/
def makeCodec (chosenProto : String) (forceHTTP1xCodecTo1_1 : Bool) : HTTPCodec :=
  match SPDYCodec.getVersion chosenProto with
  | some spdyVersion => HTTPCodec.spdy TransportDirection.UPSTREAM spdyVersion
  | none =>
    if chosenProto = http2.kProtocolString ∨
       chosenProto = http2.kProtocolCleartextString ∨
       chosenProto = http2.kProtocolDraftString ∨
       chosenProto = http2.kProtocolExperimentalString then
      HTTPCodec.http2 TransportDirection.UPSTREAM
    else
      HTTPCodec.http1x TransportDirection.UPSTREAM forceHTTP1xCodecTo1_1

/-- Whether the `LOG(ERROR) << "Chosen upstream protocol ... is unimplemented"`
statement in `makeCodec`'s fallback branch executes
(`src/proxygen/lib/http/HTTPConnector.cpp:165-170`). -/
def makeCodecLogsWarning (chosenProto : String) : Bool :=
  match SPDYCodec.getVersion chosenProto with
  | some _ => false
  | none =>
    if chosenProto = http2.kProtocolString ∨
       chosenProto = http2.kProtocolCleartextString ∨
       chosenProto = http2.kProtocolDraftString ∨
       chosenProto = http2.kProtocolExperimentalString then
      false
    else
      !chosenProto.isEmpty && !(HTTP1xCodec.supportsNextProtocol chosenProto)

/-! ## Connector state -/

/-- Socket addresses are opaque to the connector; it only copies them. -/
abbrev SocketAddress := Nat

/-- Transport errors are opaque to the connector; it only forwards them. -/
abbrev AsyncSocketException := Nat

/-- TLS session-resumption states read from `wangle::SSLUtil::getResumeState`. -/
inductive SSLResumeState where
  | handshake
  | resumeSessionId
  | resumeTicket
deriving DecidableEq, Repr

/-- The facets of the owned transport handle that `connectSuccess` reads:
local/peer addresses, whether the underlying transport is an `AsyncSSLSocket`
(`isSSL`), and the negotiated TLS attributes. -/
structure AsyncSocket where
  localAddress : SocketAddress
  peerAddress : SocketAddress
  isSSL : Bool
  applicationProtocol : String
  negotiatedCipherName : Option String
  sslVersion : Nat
  resumeState : SSLResumeState
deriving DecidableEq, Repr

/-- The `wangle::TransportInfo` fields the connector writes. -/
structure TransportInfo where
  secure : Bool := false
  appProtocol : Option String := none
  sslSetupTime : Nat := 0
  sslCipher : Option String := none
  sslVersion : Nat := 0
  sslResume : SSLResumeState := SSLResumeState.handshake
  acceptTime : Nat := 0
deriving DecidableEq, Repr

/-- The session object handed to the caller: ownership of the transport, the
addresses, the resolved codec, and the metadata snapshot. -/
structure HTTPUpstreamSession where
  socket : AsyncSocket
  localAddress : SocketAddress
  peerAddress : SocketAddress
  codec : HTTPCodec
  transportInfo : TransportInfo
deriving DecidableEq, Repr

/-- An invocation of the caller's result callback: `cb_->connectSuccess(session)`
or `cb_->connectError(ex)`. -/
inductive Event where
  | sessionCreated (session : HTTPUpstreamSession)
  | connectError (ex : AsyncSocketException)
deriving DecidableEq, Repr

/-- The mutable state of an `HTTPConnector`.  The callback pointer `cb_` is an
opaque reference, `none` meaning null; the transport handle `socket_` is
`none` when not owned; `connectStart_` is `none` while the default-constructed
time point is still uninitialized. -/
structure HTTPConnector where
  cb : Option Nat := none
  socket : Option AsyncSocket := none
  connectStart : Option Nat := none
  transportInfo : TransportInfo := {}
  plaintextProtocol : String := ""
  forceHTTP1xCodecTo1_1 : Bool := false
deriving DecidableEq, Repr

/-- Embedding of the `HTTPConnector` constructor
(`src/proxygen/lib/http/HTTPConnector.cpp:30-32`): stores the (checked
non-null) callback; every other member keeps its default. -/
def HTTPConnector.init (callback : Nat) : HTTPConnector :=
  { cb := some callback }

/-- Modelled from the spec: `HTTPConnector::isBusy` is declared inline in
`HTTPConnector.h`, which is not under `src/`.  Spec: "isBusy(): true iff a
transport handle is currently owned". -/
def HTTPConnector.isBusy (c : HTTPConnector) : Bool :=
  c.socket.isSome

/-- Modelled from the spec: `millisecondsSince` comes from proxygen's time
utilities, not under `src/`; it returns the duration from the given start
time point to now. -/
def millisecondsSince (start now : Nat) : Nat :=
  now - start

/-- Shallow embedding of `HTTPConnector::timeElapsed`
(`src/proxygen/lib/http/HTTPConnector.cpp:97-102`): elapsed time since
`connectStart_` when that time point is initialized, else zero. -/
def HTTPConnector.timeElapsed (c : HTTPConnector) (now : Nat) : Nat :=
  match c.connectStart with
  | some start => millisecondsSince start now
  | none => 0

/-- Shallow embedding of `HTTPConnector::connect`
(`src/proxygen/lib/http/HTTPConnector.cpp:55-70`): reset the metadata with
`secure := false`, own a freshly created plaintext socket `sock`, record the
start time, and arm the asynchronous connect (which completes later through
`connectSuccess`/`connectErr`).  Precondition `DCHECK(!isBusy())`. -/
def HTTPConnector.connect (c : HTTPConnector) (sock : AsyncSocket) (now : Nat) :
    HTTPConnector :=
  { c with transportInfo := { secure := false },
           socket := some sock,
           connectStart := some now }

/-- Shallow embedding of `HTTPConnector::connectSSL`
(`src/proxygen/lib/http/HTTPConnector.cpp:72-95`): reset the metadata with
`secure := true`, own a freshly created TLS socket `sslSock` (session token,
server name and address caching are installed on the socket itself), record
the start time, and arm the asynchronous connect. -/
def HTTPConnector.connectSSL (c : HTTPConnector) (sslSock : AsyncSocket) (now : Nat) :
    HTTPConnector :=
  { c with transportInfo := { secure := true },
           socket := some sslSock,
           connectStart := some now }

/-- Shallow embedding of `HTTPConnector::connectErr`
(`src/proxygen/lib/http/HTTPConnector.cpp:146-151`): drop the owned socket,
then invoke the callback's error path with the exception iff `cb_` is
non-null. -/
def HTTPConnector.connectErr (c : HTTPConnector) (ex : AsyncSocketException) :
    HTTPConnector × List Event :=
  let c1 := { c with socket := none }
  if c1.cb.isSome then (c1, [Event.connectError ex])
  else (c1, [])

/-- Shallow embedding of `HTTPConnector::connectSuccess`
(`src/proxygen/lib/http/HTTPConnector.cpp:106-144`): early-return when `cb_`
is null; otherwise read the addresses, stamp `acceptTime`, on a secure
transport read the TLS attributes and resolve the codec from the negotiated
protocol, else from the plaintext hint; move the socket into a new upstream
session and hand it to the callback.  Dereferencing a null `socket_` is
undefined in the source, hence `none` in that case. -/
def HTTPConnector.connectSuccess (c : HTTPConnector) (now : Nat) :
    Option (HTTPConnector × List Event) :=
  if c.cb.isNone then
    some (c, [])
  else
    match c.socket with
    | none => none
    | some sock =>
      let localAddress := sock.localAddress
      let peerAddress := sock.peerAddress
      let info0 := { c.transportInfo with acceptTime := now }
      let info :=
        if info0.secure then
          if sock.isSSL then
            { info0 with
                appProtocol := some sock.applicationProtocol,
                sslSetupTime := millisecondsSince (c.connectStart.getD 0) now,
                sslCipher := sock.negotiatedCipherName,
                sslVersion := sock.sslVersion,
                sslResume := sock.resumeState }
          else info0
        else info0
      let codec :=
        if info0.secure then
          makeCodec sock.applicationProtocol c.forceHTTP1xCodecTo1_1
        else
          makeCodec c.plaintextProtocol c.forceHTTP1xCodecTo1_1
      let session : HTTPUpstreamSession :=
        { socket := sock,
          localAddress := localAddress,
          peerAddress := peerAddress,
          codec := codec,
          transportInfo := info }
      some ({ c with socket := none, transportInfo := info },
            [Event.sessionCreated session])

/-- Shallow embedding of `HTTPConnector::reset`
(`src/proxygen/lib/http/HTTPConnector.cpp:38-45`): when a socket is owned,
null out `cb_`, destroy the socket — which synchronously invokes
`connectErr` with a teardown-generated exception `ex` — then restore `cb_`.
No-op when no socket is owned. -/
def HTTPConnector.reset (c : HTTPConnector) (ex : AsyncSocketException) :
    HTTPConnector × List Event :=
  if c.socket.isSome then
    let cb := c.cb
    let c1 := { c with cb := none }
    let r := c1.connectErr ex
    ({ r.1 with cb := cb }, r.2)
  else (c, [])

/-- Shallow embedding of the destructor `HTTPConnector::~HTTPConnector`
(`src/proxygen/lib/http/HTTPConnector.cpp:34-36`): it calls `reset()`. -/
def HTTPConnector.destroy (c : HTTPConnector) (ex : AsyncSocketException) :
    HTTPConnector × List Event :=
  c.reset ex

/-- A labelled operation on the connector, for reasoning about sequences of
operations. -/
inductive Op where
  | connect (sock : AsyncSocket) (now : Nat)
  | connectSSL (sslSock : AsyncSocket) (now : Nat)
  | reset (ex : AsyncSocketException)
  | connectSuccess (now : Nat)
  | connectErr (ex : AsyncSocketException)
deriving DecidableEq, Repr

/-- Whether the operation is one of the two connect entry points (the only
operations that write `connectStart_`). -/
def Op.isConnectOp : Op → Bool
  | Op.connect _ _ => true
  | Op.connectSSL _ _ => true
  | _ => false

/-- Resulting connector state of one operation (callback invocations are
dropped; a `connectSuccess` on a null socket, undefined in the source, is
left as a stutter). -/
def HTTPConnector.step (c : HTTPConnector) : Op → HTTPConnector
  | Op.connect sock now => c.connect sock now
  | Op.connectSSL sslSock now => c.connectSSL sslSock now
  | Op.reset ex => (c.reset ex).1
  | Op.connectSuccess now => ((c.connectSuccess now).getD (c, [])).1
  | Op.connectErr ex => (c.connectErr ex).1

/-- Run a sequence of operations from a connector state. -/
def HTTPConnector.run (c : HTTPConnector) (ops : List Op) : HTTPConnector :=
  ops.foldl HTTPConnector.step c

/-- The metadata snapshot `connectSuccess` builds before constructing the
session: `acceptTime` stamped, and the TLS attributes filled in on a secure
SSL transport. -/
def successInfo (c : HTTPConnector) (sock : AsyncSocket) (now : Nat) : TransportInfo :=
  let info0 := { c.transportInfo with acceptTime := now }
  if info0.secure then
    if sock.isSSL then
      { info0 with
          appProtocol := some sock.applicationProtocol,
          sslSetupTime := millisecondsSince (c.connectStart.getD 0) now,
          sslCipher := sock.negotiatedCipherName,
          sslVersion := sock.sslVersion,
          sslResume := sock.resumeState }
    else info0
  else info0

/-- The codec `connectSuccess` resolves: from the negotiated protocol on a
secure transport, from the plaintext hint otherwise. -/
def successCodec (c : HTTPConnector) (sock : AsyncSocket) : HTTPCodec :=
  if c.transportInfo.secure then
    makeCodec sock.applicationProtocol c.forceHTTP1xCodecTo1_1
  else
    makeCodec c.plaintextProtocol c.forceHTTP1xCodecTo1_1

/-- The session `connectSuccess` constructs from the connector state. -/
def successSession (c : HTTPConnector) (sock : AsyncSocket) (now : Nat) :
    HTTPUpstreamSession :=
  { socket := sock,
    localAddress := sock.localAddress,
    peerAddress := sock.peerAddress,
    codec := successCodec c sock,
    transportInfo := successInfo c sock now }

/-- Computation lemma: with an attached callback and an owned socket,
`connectSuccess` produces exactly one `sessionCreated` event carrying
`successSession`, and releases the socket. -/
theorem connectSuccess_attached_eq (c : HTTPConnector) (sock : AsyncSocket) (now : Nat)
    (hnone : c.cb.isNone = false) (hsock : c.socket = some sock) :
    c.connectSuccess now = some
      ({ c with socket := none, transportInfo := successInfo c sock now },
       [Event.sessionCreated (successSession c sock now)]) := by
  simp only [HTTPConnector.connectSuccess, hnone, hsock, Bool.false_eq_true, if_false,
    successSession, successCodec, successInfo]

/-! ## Sample values used by witnesses -/

/-- A sample plaintext transport handle. -/
def samplePlainSocket : AsyncSocket :=
  { localAddress := 1,
    peerAddress := 2,
    isSSL := false,
    applicationProtocol := "",
    negotiatedCipherName := none,
    sslVersion := 0,
    resumeState := SSLResumeState.handshake }

/-- A sample TLS transport handle that negotiated an unrecognized protocol. -/
def sampleSSLSocket : AsyncSocket :=
  { localAddress := 3,
    peerAddress := 4,
    isSSL := true,
    applicationProtocol := "quic",
    negotiatedCipherName := some "ECDHE-RSA-AES128-GCM-SHA256",
    sslVersion := 303,
    resumeState := SSLResumeState.resumeTicket }

/-! ## Claims about `makeCodec` -/

/-- Claim C1: `makeCodec` returns a SPDY codec if and only if the protocol
name matches a known SPDY version token, and on a match the returned codec
carries exactly that version with upstream orientation — the SPDY lookup is
consulted first, so a matching name yields SPDY regardless of any later
comparison. -/
theorem makeCodec_spdy_iff_version (proto : String) (force : Bool) :
    ((∃ d v, makeCodec proto force = HTTPCodec.spdy d v) ↔
      (SPDYCodec.getVersion proto).isSome = true) ∧
    ∀ v, SPDYCodec.getVersion proto = some v →
      makeCodec proto force = HTTPCodec.spdy TransportDirection.UPSTREAM v := by
  cases hv : SPDYCodec.getVersion proto with
  | some w =>
    constructor
    · constructor
      · intro _
        simp
      · intro _
        exact ⟨TransportDirection.UPSTREAM, w, by simp [makeCodec, hv]⟩
    · intro v hv2
      injection hv2 with h
      subst h
      simp [makeCodec, hv]
  | none =>
    constructor
    · constructor
      · rintro ⟨d, v, h⟩
        simp only [makeCodec, hv] at h
        split at h <;> exact absurd h (by simp)
      · intro h
        simp at h
    · intro v hv2
      exact absurd hv2 (by simp)

/-- Witness for C1 at the SPDY/3.1 token. -/
theorem makeCodec_spdy_iff_version_witness :
    makeCodec "spdy/3.1" false =
      HTTPCodec.spdy TransportDirection.UPSTREAM SPDYVersion.SPDY3_1 :=
  (makeCodec_spdy_iff_version "spdy/3.1" false).2 SPDYVersion.SPDY3_1 (by decide)

/-- Claim C2: when the name is not a SPDY token, `makeCodec` returns the
HTTP/2 codec exactly for the four recognized HTTP/2 identifiers, and the
HTTP/1.x codec for every other name (the empty string included, since it
satisfies the hypotheses). -/
theorem makeCodec_http2_iff_identifier (proto : String) (force : Bool)
    (hspdy : SPDYCodec.getVersion proto = none) :
    (makeCodec proto force = HTTPCodec.http2 TransportDirection.UPSTREAM ↔
      (proto = http2.kProtocolString ∨ proto = http2.kProtocolCleartextString ∨
       proto = http2.kProtocolDraftString ∨ proto = http2.kProtocolExperimentalString)) ∧
    (¬(proto = http2.kProtocolString ∨ proto = http2.kProtocolCleartextString ∨
       proto = http2.kProtocolDraftString ∨ proto = http2.kProtocolExperimentalString) →
      makeCodec proto force = HTTPCodec.http1x TransportDirection.UPSTREAM force) := by
  constructor
  · constructor
    · intro h
      by_contra hn
      simp only [makeCodec, hspdy] at h
      rw [if_neg hn] at h
      exact absurd h (by simp)
    · intro h
      simp only [makeCodec, hspdy]
      rw [if_pos h]
  · intro hn
    simp only [makeCodec, hspdy]
    rw [if_neg hn]

/-- Witness for C2: `h2c` resolves to HTTP/2 and the empty string falls back
to HTTP/1.x. -/
theorem makeCodec_http2_iff_identifier_witness :
    makeCodec "h2c" false = HTTPCodec.http2 TransportDirection.UPSTREAM ∧
    makeCodec "" true = HTTPCodec.http1x TransportDirection.UPSTREAM true :=
  ⟨(makeCodec_http2_iff_identifier "h2c" false (by decide)).1.mpr (by decide),
   (makeCodec_http2_iff_identifier "" true (by decide)).2 (by decide)⟩

/-- Claim C3: a non-empty name matching neither a SPDY token, an HTTP/2
identifier, nor an HTTP/1.x-compatible token still yields a codec — the
fallback HTTP/1.x codec — with the warning logged, and a secure
`connectSuccess` that negotiated such a name still constructs a session
(carrying that fallback codec) and delivers it. -/
theorem makeCodec_unknown_proto_fallback (proto : String) (force : Bool)
    (hne : proto ≠ "")
    (hspdy : SPDYCodec.getVersion proto = none)
    (hh2 : ¬(proto = http2.kProtocolString ∨ proto = http2.kProtocolCleartextString ∨
             proto = http2.kProtocolDraftString ∨ proto = http2.kProtocolExperimentalString))
    (h1x : HTTP1xCodec.supportsNextProtocol proto = false) :
    makeCodec proto force = HTTPCodec.http1x TransportDirection.UPSTREAM force ∧
    makeCodecLogsWarning proto = true ∧
    ∀ (c : HTTPConnector) (sock : AsyncSocket) (now : Nat),
      c.cb.isSome = true → c.socket = some sock →
      c.transportInfo.secure = true → sock.applicationProtocol = proto →
      ∃ c2 s, c.connectSuccess now = some (c2, [Event.sessionCreated s]) ∧
        s.codec = HTTPCodec.http1x TransportDirection.UPSTREAM c.forceHTTP1xCodecTo1_1 := by
  refine ⟨?_, ?_, ?_⟩
  · simp only [makeCodec, hspdy]
    rw [if_neg hh2]
  · simp only [makeCodecLogsWarning, hspdy]
    rw [if_neg hh2]
    have : proto.isEmpty = false := by
      cases h : proto.isEmpty
      · rfl
      · exact absurd ((String.isEmpty_iff proto).mp h) hne
    simp [this, h1x]
  · intro c sock now hcb hsock hsec hproto
    have hnone : c.cb.isNone = false := by
      cases h : c.cb
      · rw [h] at hcb
        exact absurd hcb (by simp)
      · rfl
    refine ⟨_, _, connectSuccess_attached_eq c sock now hnone hsock, ?_⟩
    simp only [successSession, successCodec, hsec, hproto, if_true]
    simp only [makeCodec, hspdy]
    rw [if_neg hh2]

/-- Witness for C3 at the unrecognized protocol name `quic` on a secure
connector. -/
theorem makeCodec_unknown_proto_fallback_witness :
    makeCodec "quic" false = HTTPCodec.http1x TransportDirection.UPSTREAM false ∧
    makeCodecLogsWarning "quic" = true :=
  ⟨(makeCodec_unknown_proto_fallback "quic" false (by decide) (by decide)
      (by decide) (by decide)).1,
   (makeCodec_unknown_proto_fallback "quic" false (by decide) (by decide)
      (by decide) (by decide)).2.1⟩

/-! ## Claims about the lifecycle state machine -/

/-- Discriminator for session-delivery events. -/
def Event.isSessionEvent : Event → Bool
  | Event.sessionCreated _ => true
  | Event.connectError _ => false

/-- Helper: the first component of `reset` never owns a socket. -/
theorem reset_fst_socket (c : HTTPConnector) (ex : AsyncSocketException) :
    (c.reset ex).1.socket = none := by
  by_cases h : c.socket.isSome = true
  · simp [HTTPConnector.reset, h, HTTPConnector.connectErr]
  · have hnone : c.socket = none := by
      cases hs : c.socket
      · rfl
      · rw [hs] at h
        simp at h
    simp [HTTPConnector.reset, h, hnone]

/-- Claim C4: resetting a connector with an in-flight attempt never invokes
the caller's error callback — the synchronous `connectErr` triggered by the
socket teardown finds `cb_` null and is suppressed — and afterwards no
transport is owned, so `isBusy` is false and a new attempt may start. -/
theorem reset_inflight_suppresses_error (c : HTTPConnector) (ex : AsyncSocketException)
    (hbusy : c.socket.isSome = true) :
    (c.reset ex).2 = [] ∧
    (c.reset ex).1.socket = none ∧
    (c.reset ex).1.isBusy = false := by
  refine ⟨?_, reset_fst_socket c ex, ?_⟩
  · simp [HTTPConnector.reset, hbusy, HTTPConnector.connectErr]
  · simp [HTTPConnector.isBusy, reset_fst_socket c ex]

/-- Witness for C4 on a connector with an in-flight plaintext attempt. -/
theorem reset_inflight_suppresses_error_witness :
    ((((HTTPConnector.init 7).connect samplePlainSocket 5).reset 9).2 = [] ∧
     (((HTTPConnector.init 7).connect samplePlainSocket 5).reset 9).1.socket = none ∧
     (((HTTPConnector.init 7).connect samplePlainSocket 5).reset 9).1.isBusy = false) :=
  reset_inflight_suppresses_error ((HTTPConnector.init 7).connect samplePlainSocket 5) 9 rfl

/-- Claim C5: `connectErr` always discards the owned transport and leaves the
connector idle; the caller's error path receives the unmodified exception
exactly once iff a callback is attached; and no session event is ever
produced by the error path. -/
theorem connectErr_discards_and_forwards (c : HTTPConnector) (ex : AsyncSocketException) :
    (c.connectErr ex).1.socket = none ∧
    (c.connectErr ex).1.isBusy = false ∧
    (c.connectErr ex).2 = (if c.cb.isSome then [Event.connectError ex] else []) ∧
    (c.connectErr ex).2.filter Event.isSessionEvent = [] := by
  by_cases h : c.cb.isSome = true
  · simp [HTTPConnector.connectErr, HTTPConnector.isBusy, h, Event.isSessionEvent]
  · simp [HTTPConnector.connectErr, HTTPConnector.isBusy, h]

/-- Claim C7: with the callback reference detached, `connectSuccess` is a
no-op: the connector state is unchanged (no metadata written, no socket
released) and no event — no codec, session, or callback invocation — is
produced. -/
theorem connectSuccess_detached_noop (c : HTTPConnector) (now : Nat)
    (hcb : c.cb = none) :
    c.connectSuccess now = some (c, []) := by
  simp [HTTPConnector.connectSuccess, hcb]

/-- A connector whose callback reference is detached while a socket is owned,
as inside the `reset` window. -/
def detachedConnector : HTTPConnector :=
  { cb := none,
    socket := some samplePlainSocket,
    connectStart := some 5 }

/-- Witness for C7 on a detached connector owning a socket. -/
theorem connectSuccess_detached_noop_witness :
    detachedConnector.connectSuccess 9 = some (detachedConnector, []) :=
  connectSuccess_detached_noop detachedConnector 9 rfl

/-- Claim C10: `reset` is a no-op on an idle connector (so the destructor of
an idle connector performs no teardown and delivers no notification), always
restores the callback reference to its prior value, and is idempotent: a
second `reset` is a no-op. -/
theorem reset_idempotent_and_idle_noop (c : HTTPConnector)
    (ex ex2 : AsyncSocketException) :
    (c.socket = none → c.reset ex = (c, [])) ∧
    (c.socket = none → c.destroy ex = (c, [])) ∧
    (c.reset ex).1.cb = c.cb ∧
    (c.reset ex).1.reset ex2 = ((c.reset ex).1, []) := by
  have hidle : ∀ d : HTTPConnector, d.socket = none → d.reset ex2 = (d, []) := by
    intro d hd
    simp [HTTPConnector.reset, hd]
  refine ⟨?_, ?_, ?_, hidle _ (reset_fst_socket c ex)⟩
  · intro h
    simp [HTTPConnector.reset, h]
  · intro h
    simp [HTTPConnector.destroy, HTTPConnector.reset, h]
  · by_cases h : c.socket.isSome = true
    · simp [HTTPConnector.reset, h, HTTPConnector.connectErr]
    · simp [HTTPConnector.reset, h]

/-- Witness for C10 on a freshly constructed (idle) connector. -/
theorem reset_idempotent_and_idle_noop_witness :
    (HTTPConnector.init 3).reset 1 = (HTTPConnector.init 3, []) ∧
    (HTTPConnector.init 3).destroy 1 = (HTTPConnector.init 3, []) :=
  ⟨(reset_idempotent_and_idle_noop (HTTPConnector.init 3) 1 2).1 rfl,
   (reset_idempotent_and_idle_noop (HTTPConnector.init 3) 1 2).2.1 rfl⟩

/-- Claim C8: `timeElapsed` returns zero on a connector on which no attempt
has ever started (`connectStart_` still uninitialized, as on a freshly
constructed connector), and once an attempt starts — via `connect` or
`connectSSL` at time `t` — it returns the duration since `t`. -/
theorem timeElapsed_zero_before_then_since (callback : Nat) (now t : Nat)
    (c : HTTPConnector) (sock : AsyncSocket) :
    (HTTPConnector.init callback).timeElapsed now = 0 ∧
    (c.connectStart = none → c.timeElapsed now = 0) ∧
    (c.connect sock t).timeElapsed now = millisecondsSince t now ∧
    (c.connectSSL sock t).timeElapsed now = millisecondsSince t now := by
  refine ⟨rfl, ?_, rfl, rfl⟩
  intro h
  simp [HTTPConnector.timeElapsed, h]

/-- Witness for C8: a fresh connector reports zero; a default-state connector
with uninitialized start reports zero; after a connect at time 3, the elapsed
time at 10 is 7. -/
theorem timeElapsed_zero_before_then_since_witness :
    (HTTPConnector.init 2).timeElapsed 5 = 0 ∧
    ({} : HTTPConnector).timeElapsed 9 = 0 ∧
    ((HTTPConnector.init 2).connect samplePlainSocket 3).timeElapsed 10 = 7 :=
  ⟨(timeElapsed_zero_before_then_since 2 5 3 (HTTPConnector.init 2) samplePlainSocket).1,
   (timeElapsed_zero_before_then_since 2 9 3 {} samplePlainSocket).2.1 rfl,
   by
    rw [(timeElapsed_zero_before_then_since 2 10 3 (HTTPConnector.init 2)
      samplePlainSocket).2.2.1]
    decide⟩

/-- Helper: no operation changes the stored callback reference. -/
theorem step_cb (c : HTTPConnector) (op : Op) : (c.step op).cb = c.cb := by
  cases op with
  | connect sock now => rfl
  | connectSSL sslSock now => rfl
  | reset ex =>
    by_cases h : c.socket.isSome = true
    · simp [HTTPConnector.step, HTTPConnector.reset, h, HTTPConnector.connectErr]
    · simp [HTTPConnector.step, HTTPConnector.reset, h]
  | connectSuccess now =>
    simp only [HTTPConnector.step]
    by_cases hcb : c.cb.isNone = true
    · simp [HTTPConnector.connectSuccess, hcb]
    · cases hs : c.socket
      · simp [HTTPConnector.connectSuccess, hcb, hs]
      · simp [HTTPConnector.connectSuccess, hcb, hs]
  | connectErr ex =>
    by_cases h : c.cb.isSome = true
    · simp [HTTPConnector.step, HTTPConnector.connectErr, h]
    · simp [HTTPConnector.step, HTTPConnector.connectErr, h]

/-- Helper: running any operation sequence leaves the callback reference
unchanged. -/
theorem run_cb (c : HTTPConnector) (ops : List Op) : (c.run ops).cb = c.cb := by
  induction ops generalizing c with
  | nil => rfl
  | cons op rest ih => exact (ih (c.step op)).trans (step_cb c op)

/-- Claim C6: on every reachable connector (any operation sequence from a
fresh connector), the two connect entry points leave a transport owned so
`isBusy` is true, and each terminal callback releases it so `isBusy` is
false afterwards — `connectSuccess` by moving the socket into the delivered
session, `connectErr` by discarding it. -/
theorem busy_iff_transport_owned (callback : Nat) (ops : List Op)
    (sock sock2 : AsyncSocket) (now now2 : Nat) (ex : AsyncSocketException)
    (c : HTTPConnector) (hc : c = (HTTPConnector.init callback).run ops) :
    (c.connect sock now).isBusy = true ∧
    (c.connectSSL sock now).isBusy = true ∧
    (c.socket = some sock2 →
      ∃ c2 s, c.connectSuccess now2 = some (c2, [Event.sessionCreated s]) ∧
        s.socket = sock2 ∧ c2.socket = none ∧ c2.isBusy = false) ∧
    ((c.connectErr ex).1.isBusy = false) := by
  have hcb : c.cb = some callback := by
    rw [hc, run_cb]
    rfl
  refine ⟨rfl, rfl, ?_, ?_⟩
  · intro hsock
    refine ⟨_, _, connectSuccess_attached_eq c sock2 now2 (by rw [hcb]; rfl) hsock,
      rfl, rfl, rfl⟩
  · by_cases h : c.cb.isSome = true
    · simp [HTTPConnector.connectErr, HTTPConnector.isBusy, h]
    · simp [HTTPConnector.connectErr, HTTPConnector.isBusy, h]

/-- A reachable connector with an in-flight plaintext attempt, used by
witnesses. -/
def inflightConnector : HTTPConnector :=
  (HTTPConnector.init 5).run [Op.connect samplePlainSocket 0]

/-- Witness for C6 on a reachable in-flight connector. -/
theorem busy_iff_transport_owned_witness :
    ∃ c2 s, inflightConnector.connectSuccess 4 = some (c2, [Event.sessionCreated s]) ∧
      s.socket = samplePlainSocket ∧ c2.socket = none ∧ c2.isBusy = false :=
  (busy_iff_transport_owned 5 [Op.connect samplePlainSocket 0]
    samplePlainSocket samplePlainSocket 1 4 9 inflightConnector rfl).2.2.1 rfl

/-- Helper: a step by an operation that is not `connect`/`connectSSL` leaves
`connectStart_` untouched. -/
theorem step_connectStart (c : HTTPConnector) (op : Op)
    (h : op.isConnectOp = false) : (c.step op).connectStart = c.connectStart := by
  cases op with
  | connect sock now => simp [Op.isConnectOp] at h
  | connectSSL sslSock now => simp [Op.isConnectOp] at h
  | reset ex =>
    by_cases hs : c.socket.isSome = true
    · simp [HTTPConnector.step, HTTPConnector.reset, hs, HTTPConnector.connectErr]
    · simp [HTTPConnector.step, HTTPConnector.reset, hs]
  | connectSuccess now =>
    simp only [HTTPConnector.step]
    by_cases hcb : c.cb.isNone = true
    · simp [HTTPConnector.connectSuccess, hcb]
    · cases hsock : c.socket
      · simp [HTTPConnector.connectSuccess, hcb, hsock]
      · simp [HTTPConnector.connectSuccess, hcb, hsock]
  | connectErr ex =>
    by_cases hcb : c.cb.isSome = true
    · simp [HTTPConnector.step, HTTPConnector.connectErr, hcb]
    · simp [HTTPConnector.step, HTTPConnector.connectErr, hcb]

/-- Helper: no operation uninitializes `connectStart_` once it is set. -/
theorem step_connectStart_isSome (c : HTTPConnector) (op : Op)
    (h : c.connectStart.isSome = true) : (c.step op).connectStart.isSome = true := by
  cases op with
  | connect sock now => rfl
  | connectSSL sslSock now => rfl
  | reset ex => rw [step_connectStart c (Op.reset ex) rfl]; exact h
  | connectSuccess now => rw [step_connectStart c (Op.connectSuccess now) rfl]; exact h
  | connectErr ex => rw [step_connectStart c (Op.connectErr ex) rfl]; exact h

/-- Helper: `connectStart_` stays initialized across any operation
sequence. -/
theorem run_connectStart_isSome (c : HTTPConnector) (ops : List Op)
    (h : c.connectStart.isSome = true) :
    (c.run ops).connectStart.isSome = true := by
  induction ops generalizing c with
  | nil => exact h
  | cons op rest ih => exact ih (c.step op) (step_connectStart_isSome c op h)

/-- Helper: a sequence without connect operations preserves `connectStart_`
exactly. -/
theorem run_connectStart_eq (c : HTTPConnector) (ops : List Op)
    (h : ∀ op ∈ ops, op.isConnectOp = false) :
    (c.run ops).connectStart = c.connectStart := by
  induction ops generalizing c with
  | nil => rfl
  | cons op rest ih =>
    have h1 : (c.run (op :: rest)).connectStart = ((c.step op).run rest).connectStart := rfl
    rw [h1, ih (c.step op) (fun o ho => h o (List.mem_cons_of_mem _ ho)),
      step_connectStart c op (h op (List.mem_cons_self _ _))]

/-- Claim C9: once an attempt has recorded a connect-start time, no later
operation (success, failure, or reset) ever clears it: `connectStart_` stays
initialized through any operation sequence, and across a sequence free of new
connect calls `timeElapsed` keeps returning the duration since the most
recent connect start — never the uninitialized-case zero. -/
theorem connectStart_never_cleared (c : HTTPConnector) (ops : List Op) (t now : Nat)
    (hstart : c.connectStart = some t) :
    (c.run ops).connectStart.isSome = true ∧
    ((∀ op ∈ ops, op.isConnectOp = false) →
      (c.run ops).connectStart = some t ∧
      (c.run ops).timeElapsed now = millisecondsSince t now) := by
  constructor
  · exact run_connectStart_isSome c ops (by rw [hstart]; rfl)
  · intro h
    have heq : (c.run ops).connectStart = some t := by
      rw [run_connectStart_eq c ops h, hstart]
    exact ⟨heq, by simp [HTTPConnector.timeElapsed, heq]⟩

/-- Witness for C9: after a connect at time 0 followed by a reset, the start
time survives and the elapsed time at 6 is still measured from 0. -/
theorem connectStart_never_cleared_witness :
    (inflightConnector.run [Op.reset 3]).connectStart.isSome = true ∧
    (inflightConnector.run [Op.reset 3]).timeElapsed 6 = millisecondsSince 0 6 := by
  have h := connectStart_never_cleared inflightConnector [Op.reset 3] 0 6 rfl
  exact ⟨h.1, (h.2 (by decide)).2⟩

end Proxygen
